import Mathlib

/-!
Shallow embedding of `slurm_interface.py` (and the terminal-state list of
`agent.py`) from the repository `slurm_agent`.

Modelling conventions:
* Python strings are Lean `String`s; the Python `str` operations used by the
  source (`strip`, `split`, `split("=")`, `splitlines`, `replace`, `in`,
  `startswith`) are re-implemented below on `List Char`, faithful to CPython
  semantics for the inputs the source feeds them.
* Python dicts keyed by strings are association lists with
  insert-replaces-existing-binding semantics (`dictInsert` / `dictGet?`),
  matching `d[k] = v` / `d.get(k)` / `k in d`.
* Wall-clock time (`time.time()`) is an explicit `ℚ` argument `now`.
* `random.randint(1000, 9999)` is an explicit `ℕ` argument `r` (the drawn
  value); the source turns it into the id via `str(r)`, i.e. `Nat.repr r`.
* The remote side effects (sbatch / squeue / sacct / SFTP / cat responses)
  are explicit environment arguments; `_run_command` strips stdout/stderr,
  which the embedding applies via `pyStrip`.
* Python exceptions are `Except String` values carrying the message text;
  a raised exception leaves `self` unmutated, which the embedding renders by
  returning the unchanged registry beside the error.
-/

/-- CPython `str.isspace` characters relevant to `strip`/`split`. -/
def pyIsSpace (c : Char) : Bool :=
  c = ' ' || c = '\t' || c = '\n' || c = '\r' || c = Char.ofNat 11 || c = Char.ofNat 12

/-- Python `s.strip()` on the character list: drop whitespace from the
front, then from the back. -/
def listStrip (l : List Char) : List Char :=
  (l.dropWhile pyIsSpace).rdropWhile pyIsSpace

/-- Python `s.strip()`. -/
def pyStrip (s : String) : String :=
  ⟨listStrip s.data⟩

/-- Helper for `pySplit`: split on whitespace runs, accumulator holds the
current (reversed) token. -/
def splitWsAux : List Char → List Char → List String
  | [], [] => []
  | [], acc => [⟨acc.reverse⟩]
  | c :: cs, acc =>
    if pyIsSpace c then
      match acc with
      | [] => splitWsAux cs []
      | _ :: _ => ⟨acc.reverse⟩ :: splitWsAux cs []
    else splitWsAux cs (c :: acc)

/-- Python `s.split()` (no argument): split on whitespace runs, no empties. -/
def pySplit (s : String) : List String :=
  splitWsAux s.data []

/-- Split a character list on a separator character, keeping empty pieces
(Python `s.split("=")`). -/
def listSplitOnChar (sep : Char) : List Char → List (List Char)
  | [] => [[]]
  | c :: cs =>
    if c = sep then [] :: listSplitOnChar sep cs
    else
      match listSplitOnChar sep cs with
      | [] => [[c]]
      | p :: ps => (c :: p) :: ps

/-- Python `s.split("=")`. -/
def pySplitEq (s : String) : List String :=
  (listSplitOnChar '=' s.data).map fun l => ⟨l⟩

/-- Python `s.splitlines()` for `\n`-separated text: like splitting on
`'\n'` but without a trailing empty line. -/
def pySplitLines (s : String) : List String :=
  if s.data = [] then []
  else
    let parts := (listSplitOnChar '\n' s.data).map fun l => (⟨l⟩ : String)
    match parts.getLast? with
    | some ("") => parts.dropLast
    | _ => parts

/-- Python `pat in s` on character lists: `pat` occurs contiguously in `s`. -/
def listContains (pat : List Char) : List Char → Bool
  | [] => pat.isEmpty
  | c :: cs => pat.isPrefixOf (c :: cs) || listContains pat cs

/-- Python `pat in s` for strings. -/
def pyIn (pat s : String) : Bool :=
  listContains pat.data s.data

/-- Python `s.startswith(pre)`. -/
def pyStartsWith (s pre : String) : Bool :=
  pre.data.isPrefixOf s.data

/-- Fueled replace-all: each step consumes at least one character of the
subject and one unit of fuel, so with `fuel = s.length` it is Python
`s.replace(pat, rep)` for non-empty `pat`. -/
def listReplaceF (pat rep : List Char) : ℕ → List Char → List Char
  | 0, s => s
  | _ + 1, [] => []
  | fuel + 1, c :: cs =>
    if pat ≠ [] ∧ pat.isPrefixOf (c :: cs) then
      rep ++ listReplaceF pat rep fuel (cs.drop (pat.length - 1))
    else
      c :: listReplaceF pat rep fuel cs

/-- Python `s.replace(pat, rep)`. -/
def pyReplace (s pat rep : String) : String :=
  ⟨listReplaceF pat.data rep.data s.data.length s.data⟩

/-- Python dict assignment `d[k] = v`: replace the existing binding for `k`
if present, otherwise append a new one. -/
def dictInsert {α : Type} (m : List (String × α)) (k : String) (v : α) :
    List (String × α) :=
  match m with
  | [] => [(k, v)]
  | (k', v') :: rest =>
    if k' = k then (k, v) :: rest else (k', v') :: dictInsert rest k v

/-- Python `d.get(k)` / `d[k]`. -/
def dictGet? {α : Type} (m : List (String × α)) (k : String) : Option α :=
  match m with
  | [] => none
  | (k', v') :: rest => if k' = k then some v' else dictGet? rest k

/-- Python `k in d`. -/
def dictContains {α : Type} (m : List (String × α)) (k : String) : Bool :=
  (dictGet? m k).isSome

/-! ### MockSlurmClient (`slurm_interface.py`, lines 25-68) -/

/-- One entry of `MockSlurmClient.jobs`: the dict literal built in
`submit_job` (status, script, submitted_at, output). -/
structure MockJob where
  status : String
  script : String
  submitted_at : ℚ
  output : String
deriving DecidableEq, Repr

/-- The state of a `MockSlurmClient` instance: its `jobs` registry. -/
structure MockState where
  jobs : List (String × MockJob)
deriving DecidableEq, Repr

/-- `MockSlurmClient.__init__`: empty registry. -/
def MockSlurmClient.init : MockState := ⟨[]⟩

/-- `MockSlurmClient.submit_job`. `now` is `time.time()`, `r` is the value
drawn by `random.randint(1000, 9999)`; the id is `str(r)`. -/
def MockSlurmClient.submit_job (s : MockState) (script_content : String)
    (now : ℚ) (r : ℕ) : String × MockState :=
  let job_id := Nat.repr r
  (job_id, ⟨dictInsert s.jobs job_id
    { status := "PENDING", script := script_content,
      submitted_at := now, output := "" }⟩)

/-- `MockSlurmClient.get_job_status`. Returns the status string and the
updated state; `now` is `time.time()` at the poll. -/
def MockSlurmClient.get_job_status (s : MockState) (job_id : String)
    (now : ℚ) : String × MockState :=
  match dictGet? s.jobs job_id with
  | none => ("UNKNOWN", s)
  | some job =>
    let elapsed := now - job.submitted_at
    if elapsed < 2 then
      ("PENDING", ⟨dictInsert s.jobs job_id { job with status := "PENDING" }⟩)
    else if elapsed < 5 then
      ("RUNNING", ⟨dictInsert s.jobs job_id { job with status := "RUNNING" }⟩)
    else
      let out :=
        if job.output = "" then
          if pyIn ("python") job.script then ("Result: 42 (Mock Output)")
          else ("Job completed successfully.")
        else job.output
      ("COMPLETED",
        ⟨dictInsert s.jobs job_id { job with status := "COMPLETED", output := out }⟩)

/-- `MockSlurmClient.get_job_output`:
`self.jobs.get(job_id, {}).get("output", "No output available.")`. -/
def MockSlurmClient.get_job_output (s : MockState) (job_id : String) : String :=
  match dictGet? s.jobs job_id with
  | none => "No output available."
  | some job => job.output

/-! ### ParamikoSlurmClient (`slurm_interface.py`, lines 70-174) -/

/-- The state of a `ParamikoSlurmClient` instance that the three job
operations read or write: its `job_files` registry
(`job_id -> output_filename_pattern`). -/
abbrev JobFiles := List (String × String)

/-- The output-pattern scan of `ParamikoSlurmClient.submit_job`, lines
124-128: first line whose stripped form starts with `#SBATCH --output=`
supplies the pattern (the text between the first and second `=`), else the
default `slurm-%j.out`. -/
def scanOutputPattern : List String → String
  | [] => "slurm-%j.out"
  | line :: rest =>
    if pyStartsWith (pyStrip line) "#SBATCH --output=" then
      ((pySplitEq (pyStrip line)).getD 1 "")
    else scanOutputPattern rest

/-- Pattern derivation over the whole script (`for line in
script_content.splitlines()`). -/
def deriveOutputPattern (script_content : String) : String :=
  scanOutputPattern (pySplitLines script_content)

/-- `ParamikoSlurmClient.submit_job`. Environment arguments: `sftpErr` is
`some e` when the SFTP upload raises (message `e`), `code`/`outRaw`/`errRaw`
are the exit status and raw stdout/stderr of `sbatch` (stripped by
`_run_command`). Returns the raised message or the job id, together with the
`job_files` registry after the call. -/
def ParamikoSlurmClient.submit_job (job_files : JobFiles)
    (script_content : String) (sftpErr : Option String) (code : ℕ)
    (outRaw errRaw : String) : Except String String × JobFiles :=
  match sftpErr with
  | some e => (.error ("Failed to upload script via SFTP: " ++ e), job_files)
  | none =>
    let out := pyStrip outRaw
    let err := pyStrip errRaw
    if code ≠ 0 then (.error ("sbatch failed: " ++ err), job_files)
    else
      match (pySplit out).getLast? with
      | none =>
        (.error ("Could not parse job ID from sbatch output: " ++ out), job_files)
      | some job_id =>
        let output_pattern := deriveOutputPattern script_content
        (.ok job_id, dictInsert job_files job_id output_pattern)

/-- `ParamikoSlurmClient.get_job_status`. Environment arguments: the raw
stdout of `squeue -j <id> -h -o %T` and of `sacct -j <id> -n -o State`
(`_run_command` strips them; exit codes are ignored by the source). The
function reads no instance state. -/
def ParamikoSlurmClient.get_job_status (squeueRaw sacctRaw : String) : String :=
  let out := pyStrip squeueRaw
  if out = "" then
    let out_sacct := pyStrip sacctRaw
    if out_sacct ≠ "" then pyStrip ((pySplit out_sacct).headD (""))
    else ("COMPLETED")
  else pyStrip out

/-- One iteration's environment for the retry loop of
`ParamikoSlurmClient.get_job_output`: `sftpRead = some content` when the SFTP
read of the output file succeeds, `none` when it raises `IOError`;
`catCode`/`catOutRaw` are the exit status and raw stdout of the fallback
`cat` (stripped by `_run_command`). -/
structure FetchAttempt where
  sftpRead : Option String
  catCode : ℕ
  catOutRaw : String

/-- Result of `get_job_output` plus the number of `time.sleep(3)` calls the
loop performed (to make the bounded-waiting behaviour statable). -/
structure FetchRes where
  text : String
  sleeps : ℕ
deriving DecidableEq, Repr

/-- The retry loop of `ParamikoSlurmClient.get_job_output`, lines 157-174:
iteration `i = max_retries - remaining`; SFTP read first, `cat` fallback,
then `time.sleep(3)` unless this was the last iteration. -/
def fetchLoop (outfile : String) (attempts : ℕ → FetchAttempt)
    (max_retries : ℕ) : ℕ → ℕ → FetchRes
  | 0, slept => ⟨"Output file " ++ outfile ++ " not found after retries.", slept⟩
  | remaining + 1, slept =>
    let i := max_retries - (remaining + 1)
    let a := attempts i
    match a.sftpRead with
    | some content => ⟨content, slept⟩
    | none =>
      if a.catCode = 0 then ⟨pyStrip a.catOutRaw, slept⟩
      else if i < max_retries - 1 then
        fetchLoop outfile attempts max_retries remaining (slept + 1)
      else fetchLoop outfile attempts max_retries remaining slept

/-- The output filename computed at the top of `get_job_output`:
`self.job_files.get(job_id, "slurm-%j.out").replace("%j", job_id)`. -/
def computeOutfile (job_files : JobFiles) (job_id : String) : String :=
  pyReplace ((dictGet? job_files job_id).getD ("slurm-%j.out")) ("%j") job_id

/-- `ParamikoSlurmClient.get_job_output` with `max_retries = 10`. -/
def ParamikoSlurmClient.get_job_output (job_files : JobFiles)
    (job_id : String) (attempts : ℕ → FetchAttempt) : FetchRes :=
  fetchLoop (computeOutfile job_files job_id) attempts 10 10 0

/-! ### Terminal states (`agent.py`, line 126) -/

/-- The terminal-state list the orchestration loop stops on:
`["COMPLETED", "FAILED", "CANCELLED", "TIMEOUT", "NODE_FAIL"]`. -/
def isTerminalState (s : String) : Bool :=
  s = "COMPLETED" || s = "FAILED" || s = "CANCELLED" || s = "TIMEOUT" ||
    s = "NODE_FAIL"

/-- Statuses observed by a single poller repeatedly calling the remote
`get_job_status` for one job id: the scheduler's responses per poll are the
environment sequence. The source function touches no instance state, so a
sequence of calls is just the map of the function over the responses. -/
def ParamikoSlurmClient.pollSequence (envs : List (String × String)) :
    List String :=
  envs.map fun e => ParamikoSlurmClient.get_job_status e.fst e.snd

/-- Repeated polling of one id on the mock client, threading the state. -/
def MockSlurmClient.pollFold (s : MockState) (job_id : String) :
    List ℚ → MockState
  | [] => s
  | t :: ts =>
    MockSlurmClient.pollFold (MockSlurmClient.get_job_status s job_id t).snd
      job_id ts

/-- The statuses observed by a single poller repeatedly calling the mock
`get_job_status` for one id at the given (wall-clock) times, threading the
mutated state. -/
def MockSlurmClient.pollStatuses (s : MockState) (job_id : String) :
    List ℚ → List String
  | [] => []
  | t :: ts =>
    (MockSlurmClient.get_job_status s job_id t).fst ::
      MockSlurmClient.pollStatuses
        (MockSlurmClient.get_job_status s job_id t).snd job_id ts

/-- Modelled from the spec (§4.2, simulated variant's state derivation):
the normalized state as a pure function of elapsed time since submission.
Stated from the spec's words, for comparison against
`MockSlurmClient.get_job_status`. -/
def specMockStatusOfElapsed (elapsed : ℚ) : String :=
  if elapsed < 2 then ("PENDING")
  else if elapsed < 5 then ("RUNNING")
  else ("COMPLETED")

/-! ### Helper lemmas: dictionaries -/

theorem dictGet?_insert {α : Type} (m : List (String × α)) (k : String)
    (v : α) : dictGet? (dictInsert m k v) k = some v := by
  induction m with
  | nil => simp [dictInsert, dictGet?]
  | cons hd tl ih =>
    obtain ⟨k', v'⟩ := hd
    by_cases h : k' = k <;> simp [dictInsert, dictGet?, h, ih]

theorem dictGet?_insert_ne {α : Type} (m : List (String × α)) (k k' : String)
    (v : α) (h : k ≠ k') : dictGet? (dictInsert m k v) k' = dictGet? m k' := by
  induction m with
  | nil => simp [dictInsert, dictGet?, h]
  | cons hd tl ih =>
    obtain ⟨k0, v0⟩ := hd
    by_cases h0 : k0 = k
    · subst h0
      simp [dictInsert, dictGet?, h]
    · simp [dictInsert, dictGet?, h0, ih]

/-! ### Helper lemmas: Python string operations -/

theorem listStrip_front_clean (l : List Char) :
    (listStrip l).dropWhile pyIsSpace = listStrip l := by
  rw [List.dropWhile_eq_self_iff]
  intro hl hp
  have hpre : listStrip l <+: l.dropWhile pyIsSpace :=
    List.rdropWhile_prefix _ _
  have hlen : 0 < (l.dropWhile pyIsSpace).length :=
    lt_of_lt_of_le hl hpre.length_le
  have hget : (listStrip l).get ⟨0, hl⟩
      = (l.dropWhile pyIsSpace).get ⟨0, hlen⟩ := by
    simpa [List.get_eq_getElem] using hpre.getElem hl
  exact List.dropWhile_get_zero_not pyIsSpace l hlen (by rw [← hget]; exact hp)

theorem listStrip_idem (l : List Char) :
    listStrip (listStrip l) = listStrip l := by
  have h := listStrip_front_clean l
  unfold listStrip at h ⊢
  rw [h, List.rdropWhile_idempotent]

theorem data_pyStrip (s : String) : (pyStrip s).data = listStrip s.data := rfl

theorem pyStrip_idem (s : String) : pyStrip (pyStrip s) = pyStrip s := by
  unfold pyStrip
  exact congrArg String.mk (listStrip_idem s.data)

theorem listStrip_eq_self (l : List Char)
    (h : ∀ c ∈ l, pyIsSpace c = false) : listStrip l = l := by
  unfold listStrip
  have h1 : l.dropWhile pyIsSpace = l := by
    rw [List.dropWhile_eq_self_iff]
    intro hl
    have := h (l.get ⟨0, hl⟩) (List.get_mem l 0 hl)
    simpa using this
  rw [h1, List.rdropWhile_eq_self_iff]
  intro hl
  simp [h (l.getLast hl) (l.getLast_mem hl)]

theorem splitWsAux_ne_nil (l : List Char) :
    ∀ acc, acc ≠ [] → splitWsAux l acc ≠ [] := by
  induction l with
  | nil => intro acc h; simp only [splitWsAux]; cases acc <;> simp_all
  | cons c cs ih =>
    intro acc h
    simp only [splitWsAux]
    by_cases hc : pyIsSpace c <;> simp only [hc, if_true, if_false]
    · cases acc with
      | nil => exact absurd rfl h
      | cons a as => simp
    · exact ih (c :: acc) (by simp)

theorem splitWsAux_tokens_spacefree (l : List Char) :
    ∀ acc, (∀ c ∈ acc, pyIsSpace c = false) →
    ∀ tok ∈ splitWsAux l acc, ∀ c ∈ tok.data, pyIsSpace c = false := by
  induction l with
  | nil =>
    intro acc hacc tok htok c hc
    cases acc with
    | nil => simp [splitWsAux] at htok
    | cons a as =>
      simp only [splitWsAux, List.mem_singleton] at htok
      subst htok
      simp only [List.mem_reverse] at hc
      exact hacc c (by simpa using hc)
  | cons d ds ih =>
    intro acc hacc tok htok c hc
    by_cases hd : pyIsSpace d
    · simp only [splitWsAux, hd, if_true] at htok
      cases acc with
      | nil => exact ih [] (by simp) tok htok c hc
      | cons a as =>
        rcases List.mem_cons.mp htok with h1 | h1
        · subst h1
          simp only [List.mem_reverse] at hc
          exact hacc c (by simpa using hc)
        · exact ih [] (by simp) tok h1 c hc
    · simp only [splitWsAux, hd, if_false] at htok
      refine ih (d :: acc) ?_ tok htok c hc
      intro x hx
      rcases List.mem_cons.mp hx with h1 | h1
      · subst h1; simpa using hd
      · exact hacc x h1

theorem pySplit_head_of_stripped (s : String) (h : pyStrip s ≠ "") :
    ∃ tok rest, pySplit (pyStrip s) = tok :: rest ∧ pyStrip tok = tok := by
  have hdata : (pyStrip s).data ≠ [] := by
    intro hc
    exact h (by cases hs : pyStrip s with | mk d => simp_all)
  have hsplit : pySplit (pyStrip s) ≠ [] := by
    unfold pySplit
    rw [data_pyStrip]
    have hfront := listStrip_front_clean s.data
    rcases hl : listStrip s.data with _ | ⟨c, cs⟩
    · rw [data_pyStrip, hl] at hdata; exact absurd rfl hdata
    · have hc : pyIsSpace c = false := by
        rw [hl, List.dropWhile_cons] at hfront
        by_contra hcc
        simp only [Bool.not_eq_false] at hcc
        rw [if_pos hcc] at hfront
        have := congrArg List.length hfront
        have hle := (List.dropWhile_suffix (l := cs) pyIsSpace).length_le
        simp at this
        omega
      simp only [splitWsAux, hc, if_false]
      exact splitWsAux_ne_nil cs [c] (by simp)
  rcases htoks : pySplit (pyStrip s) with _ | ⟨tok, rest⟩
  · exact absurd htoks hsplit
  · refine ⟨tok, rest, rfl, ?_⟩
    have hmem : tok ∈ pySplit (pyStrip s) := by
      rw [htoks]; exact List.mem_cons_self _ _
    have hfree := splitWsAux_tokens_spacefree (pyStrip s).data []
      (by simp) tok hmem
    unfold pyStrip
    rw [listStrip_eq_self tok.data hfree]

/-! ### Helper lemmas: decimal representation (`str(n)` is injective) -/

theorem toDigitsCore_eq_append : ∀ (n fuel : ℕ) (acc : List Char),
    n < fuel →
    Nat.toDigitsCore 10 fuel n acc = Nat.toDigits 10 n ++ acc := by
  intro n
  induction n using Nat.strong_induction_on with
  | _ n ih =>
    intro fuel acc hfuel
    match fuel with
    | 0 => exact absurd hfuel (Nat.not_lt_zero n)
    | f + 1 =>
      rw [Nat.toDigits]
      simp only [Nat.toDigitsCore]
      by_cases h0 : n / 10 = 0
      · simp [h0]
      · have hlt : n / 10 < n := Nat.div_lt_self (by omega) (by omega)
        rw [if_neg h0, if_neg h0,
          ih (n / 10) hlt f (Nat.digitChar (n % 10) :: acc) (by omega),
          ih (n / 10) hlt n (Nat.digitChar (n % 10) :: []) (by omega)]
        simp

theorem toDigits_recurrence (n : ℕ) :
    Nat.toDigits 10 n
      = (if n / 10 = 0 then [] else Nat.toDigits 10 (n / 10))
        ++ [Nat.digitChar (n % 10)] := by
  by_cases h0 : n / 10 = 0
  · rw [Nat.toDigits]
    simp only [Nat.toDigitsCore]
    simp [h0]
  · have hlt : n / 10 < n := Nat.div_lt_self (by omega) (by omega)
    rw [Nat.toDigits]
    simp only [Nat.toDigitsCore]
    rw [if_neg h0, if_neg h0]
    exact toDigitsCore_eq_append (n / 10) n (Nat.digitChar (n % 10) :: []) hlt

theorem toDigits_ne_nil (n : ℕ) : Nat.toDigits 10 n ≠ [] := by
  rw [toDigits_recurrence]
  simp

theorem digitChar_injOn : ∀ a, a < 10 → ∀ b, b < 10 →
    Nat.digitChar a = Nat.digitChar b → a = b := by decide

theorem toDigits_inj : ∀ m n : ℕ,
    Nat.toDigits 10 m = Nat.toDigits 10 n → m = n := by
  intro m
  induction m using Nat.strong_induction_on with
  | _ m ih =>
    intro n h
    rw [toDigits_recurrence m, toDigits_recurrence n] at h
    obtain ⟨hpre, hsuf⟩ := List.append_inj' h (by simp)
    have hmod : m % 10 = n % 10 := by
      simp only [List.cons.injEq, and_true] at hsuf
      exact digitChar_injOn _ (Nat.mod_lt m (by omega)) _
        (Nat.mod_lt n (by omega)) hsuf
    by_cases hm0 : m / 10 = 0 <;> by_cases hn0 : n / 10 = 0
    · omega
    · rw [if_pos hm0, if_neg hn0] at hpre
      exact absurd hpre.symm (toDigits_ne_nil _)
    · rw [if_neg hm0, if_pos hn0] at hpre
      exact absurd hpre (toDigits_ne_nil _)
    · rw [if_neg hm0, if_neg hn0] at hpre
      have := ih (m / 10) (Nat.div_lt_self (by omega) (by omega)) (n / 10) hpre
      omega

theorem natRepr_inj (m n : ℕ) (h : Nat.repr m = Nat.repr n) : m = n := by
  apply toDigits_inj
  have hdata : (Nat.toDigits 10 m).asString.data
      = (Nat.toDigits 10 n).asString.data := by
    rw [show (Nat.toDigits 10 m).asString = Nat.repr m from rfl,
      show (Nat.toDigits 10 n).asString = Nat.repr n from rfl, h]
  simpa [List.asString] using hdata

/-! ### Helper lemmas: the mock client's poll transition -/

theorem mock_poll_unknown (s : MockState) (jid : String) (now : ℚ)
    (h : dictGet? s.jobs jid = none) :
    MockSlurmClient.get_job_status s jid now = ("UNKNOWN", s) := by
  simp [MockSlurmClient.get_job_status, h]

theorem mock_poll_fst_completed_iff (s : MockState) (jid : String) (now : ℚ)
    (job : MockJob) (h : dictGet? s.jobs jid = some job) :
    ((MockSlurmClient.get_job_status s jid now).fst = "COMPLETED"
      ↔ 5 ≤ now - job.submitted_at) := by
  simp only [MockSlurmClient.get_job_status, h]
  split_ifs with h1 h2 <;> constructor <;> intro hx
  all_goals first
    | linarith
    | (exact absurd hx (by linarith))
    | rfl
    | (simp at hx)

theorem mock_poll_snd_lt5 (s : MockState) (jid : String) (now : ℚ)
    (job : MockJob) (h : dictGet? s.jobs jid = some job)
    (h5 : now - job.submitted_at < 5) :
    dictGet? (MockSlurmClient.get_job_status s jid now).snd.jobs jid
      = some { job with
          status := (MockSlurmClient.get_job_status s jid now).fst } := by
  simp only [MockSlurmClient.get_job_status, h]
  split_ifs
  all_goals first
    | (exfalso; linarith)
    | (simp [dictGet?_insert])

theorem mock_poll_snd_ge5_empty (s : MockState) (jid : String) (now : ℚ)
    (job : MockJob) (h : dictGet? s.jobs jid = some job)
    (h5 : 5 ≤ now - job.submitted_at) (hout : job.output = "") :
    dictGet? (MockSlurmClient.get_job_status s jid now).snd.jobs jid
      = some { job with
          status := "COMPLETED",
          output := if pyIn ("python") job.script
            then ("Result: 42 (Mock Output)")
            else ("Job completed successfully.") } := by
  simp only [MockSlurmClient.get_job_status, h]
  split_ifs
  all_goals first
    | (exfalso; linarith)
    | (simp [dictGet?_insert, hout])

theorem mock_poll_snd_ge5_nonempty (s : MockState) (jid : String) (now : ℚ)
    (job : MockJob) (h : dictGet? s.jobs jid = some job)
    (h5 : 5 ≤ now - job.submitted_at) (hout : job.output ≠ "") :
    dictGet? (MockSlurmClient.get_job_status s jid now).snd.jobs jid
      = some { job with status := "COMPLETED" } := by
  simp only [MockSlurmClient.get_job_status, h]
  split_ifs
  all_goals first
    | (exfalso; linarith)
    | (simp [dictGet?_insert, hout])

/-! ### Helper lemmas: substring containment, pattern scan, retry loop -/

theorem listContains_iff_infix (pat : List Char) :
    ∀ l : List Char, (listContains pat l = true ↔ pat <:+: l) := by
  intro l
  induction l with
  | nil =>
    simp only [listContains, List.isEmpty_iff, List.infix_nil]
  | cons c cs ih =>
    simp only [listContains, Bool.or_eq_true, List.isPrefixOf_iff_prefix, ih,
      List.infix_cons_iff]

theorem pyIn_parts (pre mid suf : String) :
    pyIn mid (pre ++ mid ++ suf) = true := by
  rw [pyIn, listContains_iff_infix]
  refine ⟨pre.data, suf.data, ?_⟩
  simp [String.data_append]

theorem pyIn_of_append_right (pat s t : String) (h : pyIn pat t = true) :
    pyIn pat (s ++ t) = true := by
  rw [pyIn, listContains_iff_infix] at h ⊢
  rw [String.data_append]
  exact h.trans (List.suffix_append s.data t.data).isInfix

theorem scanOutputPattern_default (lines : List String)
    (h : ∀ line ∈ lines,
      pyStartsWith (pyStrip line) ("#SBATCH --output=") = false) :
    scanOutputPattern lines = "slurm-%j.out" := by
  induction lines with
  | nil => rfl
  | cons l ls ih =>
    have hl := h l (List.mem_cons_self _ _)
    simp only [scanOutputPattern, hl, Bool.false_eq_true, if_false]
    exact ih fun line hline => h line (List.mem_cons_of_mem _ hline)

theorem fetchLoop_all_fail (outfile : String) (attempts : ℕ → FetchAttempt)
    (max_retries : ℕ) :
    ∀ (remaining slept : ℕ), remaining ≤ max_retries →
    (∀ i, max_retries - remaining ≤ i → i < max_retries →
      (attempts i).sftpRead = none ∧ (attempts i).catCode ≠ 0) →
    fetchLoop outfile attempts max_retries remaining slept
      = ⟨"Output file " ++ outfile ++ " not found after retries.",
         slept + (remaining - 1)⟩ := by
  intro remaining
  induction remaining with
  | zero => intro slept _ _; simp [fetchLoop]
  | succ rem ih =>
    intro slept hle hfail
    have hi : max_retries - (rem + 1) < max_retries := by omega
    obtain ⟨hsftp, hcat⟩ := hfail (max_retries - (rem + 1)) (le_refl _) hi
    simp only [fetchLoop, hsftp, hcat, if_false]
    by_cases hlast : max_retries - (rem + 1) < max_retries - 1
    · rw [if_pos hlast, ih (slept + 1) (by omega)
        (fun i hge hlt => hfail i (by omega) hlt)]
      exact congrArg (FetchRes.mk _) (by omega)
    · rw [if_neg hlast]
      have hrem : rem = 0 := by omega
      subst hrem
      simp [fetchLoop]

/-! ### Helper lemmas: poll sequences on the mock client -/

theorem pollFold_preserves (jid : String) (ts : List ℚ) :
    ∀ (s : MockState) (job : MockJob),
      dictGet? s.jobs jid = some job → job.output = "" →
      (∀ t ∈ ts, t - job.submitted_at < 5) →
      ∃ job', dictGet? (MockSlurmClient.pollFold s jid ts).jobs jid = some job'
        ∧ job'.output = "" ∧ job'.submitted_at = job.submitted_at := by
  induction ts with
  | nil => intro s job h hout _; exact ⟨job, h, hout, rfl⟩
  | cons t ts ih =>
    intro s job h hout hts
    have h5 : t - job.submitted_at < 5 := hts t (List.mem_cons_self _ _)
    have hsnd := mock_poll_snd_lt5 s jid t job h h5
    obtain ⟨job', hj', ho', hs'⟩ :=
      ih (MockSlurmClient.get_job_status s jid t).snd
        { job with status := (MockSlurmClient.get_job_status s jid t).fst }
        hsnd hout (fun u hu => hts u (List.mem_cons_of_mem _ hu))
    exact ⟨job', by simpa [MockSlurmClient.pollFold] using hj', ho', hs'⟩

theorem pollStatuses_completed (jid : String) (ts : List ℚ) (sub0 : ℚ) :
    ∀ (s : MockState) (job : MockJob),
      dictGet? s.jobs jid = some job → job.submitted_at = sub0 →
      (∀ t ∈ ts, 5 ≤ t - sub0) →
      MockSlurmClient.pollStatuses s jid ts
        = ts.map fun _ => "COMPLETED" := by
  induction ts with
  | nil => intro s job _ _ _; rfl
  | cons t ts ih =>
    intro s job h hsub hts
    have h5 : 5 ≤ t - job.submitted_at := by
      rw [hsub]; exact hts t (List.mem_cons_self _ _)
    have hfst : (MockSlurmClient.get_job_status s jid t).fst = "COMPLETED" :=
      (mock_poll_fst_completed_iff s jid t job h).mpr h5
    have hrest : ∀ u ∈ ts, 5 ≤ u - sub0 :=
      fun u hu => hts u (List.mem_cons_of_mem _ hu)
    by_cases hout : job.output = ""
    · have hsnd := mock_poll_snd_ge5_empty s jid t job h h5 hout
      simp only [MockSlurmClient.pollStatuses, hfst, List.map_cons]
      rw [ih (MockSlurmClient.get_job_status s jid t).snd _ hsnd hsub hrest]
    · have hsnd := mock_poll_snd_ge5_nonempty s jid t job h h5 hout
      simp only [MockSlurmClient.pollStatuses, hfst, List.map_cons]
      rw [ih (MockSlurmClient.get_job_status s jid t).snd _ hsnd hsub hrest]

/-! ### Claim theorems -/

/-- C1 counterexample: two distinct `submit_job` calls on the same mock
client instance (they submit different scripts) whose pseudorandom draws
collide return the *same* job identifier, and that identifier maps first to
the Job record of the first call and afterwards to the Job record of the
second call — so an issued identifier does not map to exactly one Job record
for the client's lifetime. -/
theorem mock_submit_id_collision :
    ((MockSlurmClient.submit_job MockSlurmClient.init ("a") 0 1234).fst
      = (MockSlurmClient.submit_job
          (MockSlurmClient.submit_job MockSlurmClient.init ("a") 0 1234).snd
          ("b") 0 1234).fst) ∧
    (Option.map MockJob.script
        (dictGet?
          (MockSlurmClient.submit_job MockSlurmClient.init ("a") 0 1234).snd.jobs
          (MockSlurmClient.submit_job MockSlurmClient.init ("a") 0 1234).fst)
      = some ("a")) ∧
    (Option.map MockJob.script
        (dictGet?
          (MockSlurmClient.submit_job
            (MockSlurmClient.submit_job MockSlurmClient.init ("a") 0 1234).snd
            ("b") 0 1234).snd.jobs
          (MockSlurmClient.submit_job MockSlurmClient.init ("a") 0 1234).fst)
      = some ("b")) := by
  refine ⟨rfl, ?_, ?_⟩ <;>
    simp [MockSlurmClient.submit_job, MockSlurmClient.init, dictInsert,
      dictGet?]

/-- C1 (amended): `submit_job` on the mock client returns `str(r)` for the
drawn value `r` and binds that identifier to the freshly created Job record;
two submissions whose draws differ return distinct identifiers.  (When two
draws collide, the same identifier is returned twice and the newer record
replaces the older one — see the counterexample.) -/
theorem mock_submit_id_uniqueness :
    (∀ (s : MockState) (sc : String) (t : ℚ) (r : ℕ),
      (MockSlurmClient.submit_job s sc t r).fst = Nat.repr r ∧
      dictGet? (MockSlurmClient.submit_job s sc t r).snd.jobs
          (MockSlurmClient.submit_job s sc t r).fst
        = some { status := "PENDING", script := sc,
                 submitted_at := t, output := "" }) ∧
    (∀ (s1 s2 : MockState) (sc1 sc2 : String) (t1 t2 : ℚ) (r1 r2 : ℕ),
      r1 ≠ r2 →
      (MockSlurmClient.submit_job s1 sc1 t1 r1).fst
        ≠ (MockSlurmClient.submit_job s2 sc2 t2 r2).fst) := by
  constructor
  · intro s sc t r
    refine ⟨rfl, ?_⟩
    simpa [MockSlurmClient.submit_job]
      using dictGet?_insert s.jobs (Nat.repr r) _
  · intro s1 s2 sc1 sc2 t1 t2 r1 r2 hne heq
    exact hne (natRepr_inj r1 r2 heq)

/-- C1 witness: concrete instantiation of the amended claim — distinct draws
1000 and 1001 give distinct ids, and the id returned for draw 1000 is
`str(1000)`. -/
theorem mock_submit_id_uniqueness_witness :
    (MockSlurmClient.submit_job MockSlurmClient.init ("x") 0 1000).fst
      ≠ (MockSlurmClient.submit_job MockSlurmClient.init ("x") 0 1001).fst
    ∧ (MockSlurmClient.submit_job MockSlurmClient.init ("x") 0 1000).fst
      = Nat.repr 1000 :=
  ⟨mock_submit_id_uniqueness.2 MockSlurmClient.init MockSlurmClient.init
      ("x") ("x") 0 0 1000 1001 (by decide),
   (mock_submit_id_uniqueness.1 MockSlurmClient.init ("x") 0 1000).1⟩

/-- C2 counterexample: the remote client's `get_job_status` never consults a
local registry; for an identifier it never issued, with the realistic
environment where both `squeue` and `sacct` report nothing, it returns
`COMPLETED`, not the `UNKNOWN` sentinel. -/
theorem remote_unknown_id_counterexample :
    ParamikoSlurmClient.get_job_status ("") ("") = "COMPLETED" ∧
    ParamikoSlurmClient.get_job_status ("") ("") ≠ "UNKNOWN" := by
  constructor <;> decide

/-- C2 (amended): the simulated client returns the `UNKNOWN` sentinel (and
leaves its state unchanged, raising nothing) for an identifier it never
issued; the remote client consults no registry — when both scheduler queries
come back empty for such an identifier it returns `COMPLETED` (also without
raising). -/
theorem unknown_id_sentinel :
    (∀ (s : MockState) (jid : String) (now : ℚ),
      dictGet? s.jobs jid = none →
      MockSlurmClient.get_job_status s jid now = ("UNKNOWN", s)) ∧
    (∀ squeueRaw sacctRaw : String,
      pyStrip squeueRaw = "" → pyStrip sacctRaw = "" →
      ParamikoSlurmClient.get_job_status squeueRaw sacctRaw = "COMPLETED") := by
  constructor
  · exact mock_poll_unknown
  · intro sq sa h1 h2
    simp [ParamikoSlurmClient.get_job_status, h1, h2]

/-- C2 witness: a fresh mock client returns `UNKNOWN` for id `"77"`; the
remote client returns `COMPLETED` for whitespace-only query responses. -/
theorem unknown_id_sentinel_witness :
    MockSlurmClient.get_job_status MockSlurmClient.init ("77") 0
      = ("UNKNOWN", MockSlurmClient.init) ∧
    ParamikoSlurmClient.get_job_status (" ") ("\t") = "COMPLETED" :=
  ⟨unknown_id_sentinel.1 MockSlurmClient.init ("77") 0 rfl,
   unknown_id_sentinel.2 (" ") ("\t") (by decide) (by decide)⟩

/-- C3: for every job known to the simulated client, the status returned by
`get_job_status` is a pure function of the elapsed time since that job's
submission, with the spec's thresholds: `< 2 s → PENDING`,
`2 s ≤ elapsed < 5 s → RUNNING`, `≥ 5 s → COMPLETED`
(`specMockStatusOfElapsed` is stated from the spec's words). -/
theorem mock_status_pure_function (s : MockState) (jid : String) (now : ℚ)
    (job : MockJob) (h : dictGet? s.jobs jid = some job) :
    (MockSlurmClient.get_job_status s jid now).fst
      = specMockStatusOfElapsed (now - job.submitted_at) := by
  simp only [MockSlurmClient.get_job_status, specMockStatusOfElapsed, h]
  split_ifs <;> rfl

/-- C3 witness: a job submitted at time 0 polled at time 3 reports the
pure-function status of elapsed time 3 (i.e. `RUNNING`). -/
theorem mock_status_pure_function_witness :
    (MockSlurmClient.get_job_status
        ⟨[(("1"), { status := ("PENDING"), script := ("x"),
                    submitted_at := 0, output := ("") })]⟩ ("1") 3).fst
      = specMockStatusOfElapsed (3 - 0) ∧
    specMockStatusOfElapsed (3 - 0) = "RUNNING" :=
  ⟨mock_status_pure_function _ ("1") 3
      { status := ("PENDING"), script := ("x"),
        submitted_at := 0, output := ("") } rfl,
   by norm_num [specMockStatusOfElapsed]⟩

/-- C4: once the simulated client observes `COMPLETED` for a job (elapsed
≥ 5 s, output not yet populated), `get_job_output` returns a non-empty
string: one containing "42" when the submitted script text contains the
substring "python", otherwise the generic completion sentence. -/
theorem mock_completed_output (s : MockState) (jid : String) (now : ℚ)
    (job : MockJob) (h : dictGet? s.jobs jid = some job)
    (hout : job.output = "") (h5 : 5 ≤ now - job.submitted_at) :
    (MockSlurmClient.get_job_status s jid now).fst = "COMPLETED" ∧
    MockSlurmClient.get_job_output
        (MockSlurmClient.get_job_status s jid now).snd jid
      = (if pyIn ("python") job.script then ("Result: 42 (Mock Output)")
         else ("Job completed successfully.")) ∧
    MockSlurmClient.get_job_output
        (MockSlurmClient.get_job_status s jid now).snd jid ≠ "" ∧
    (pyIn ("python") job.script = true →
      pyIn ("42") (MockSlurmClient.get_job_output
        (MockSlurmClient.get_job_status s jid now).snd jid) = true) := by
  have hfst := (mock_poll_fst_completed_iff s jid now job h).mpr h5
  have hsnd := mock_poll_snd_ge5_empty s jid now job h h5 hout
  have hget : MockSlurmClient.get_job_output
      (MockSlurmClient.get_job_status s jid now).snd jid
      = (if pyIn ("python") job.script then ("Result: 42 (Mock Output)")
         else ("Job completed successfully.")) := by
    simp [MockSlurmClient.get_job_output, hsnd]
  refine ⟨hfst, hget, ?_, ?_⟩
  · rw [hget]; split_ifs <;> decide
  · intro hp
    rw [hget, if_pos hp]
    decide

/-- C4 witness: a script containing "python", submitted at time 0 and polled
at time 6, yields the canned output `Result: 42 (Mock Output)`. -/
theorem mock_completed_output_witness :
    MockSlurmClient.get_job_output
      (MockSlurmClient.get_job_status
        ⟨[(("9"), { status := ("PENDING"), script := ("run python now"),
                    submitted_at := 0, output := ("") })]⟩ ("9") 6).snd ("9")
      = "Result: 42 (Mock Output)" := by
  have h := mock_completed_output
    ⟨[(("9"), { status := ("PENDING"), script := ("run python now"),
                submitted_at := 0, output := ("") })]⟩ ("9") 6
    { status := ("PENDING"), script := ("run python now"),
      submitted_at := 0, output := ("") }
    rfl rfl (by show (5 : ℚ) ≤ 6 - 0; norm_num)
  rw [h.2.1]
  decide

/-- C5: the remote client's state derivation order — a non-empty (stripped)
`squeue` response is returned as the state; otherwise a non-empty `sacct`
response contributes its first whitespace-delimited token; otherwise the
optimistic default `COMPLETED` is returned. -/
theorem remote_status_derivation (squeueRaw sacctRaw : String) :
    (pyStrip squeueRaw ≠ "" →
      ParamikoSlurmClient.get_job_status squeueRaw sacctRaw
        = pyStrip squeueRaw) ∧
    (pyStrip squeueRaw = "" → pyStrip sacctRaw ≠ "" →
      ∃ tok rest, pySplit (pyStrip sacctRaw) = tok :: rest ∧
        ParamikoSlurmClient.get_job_status squeueRaw sacctRaw = tok) ∧
    (pyStrip squeueRaw = "" → pyStrip sacctRaw = "" →
      ParamikoSlurmClient.get_job_status squeueRaw sacctRaw = "COMPLETED") := by
  refine ⟨?_, ?_, ?_⟩
  · intro h
    simp only [ParamikoSlurmClient.get_job_status, if_neg h]
    exact pyStrip_idem squeueRaw
  · intro h1 h2
    obtain ⟨tok, rest, htoks, hstrip⟩ := pySplit_head_of_stripped sacctRaw h2
    refine ⟨tok, rest, htoks, ?_⟩
    simp only [ParamikoSlurmClient.get_job_status, h1, if_pos rfl, ne_eq, h2,
      not_false_iff, if_true, htoks, List.headD_cons]
    exact hstrip
  · intro h1 h2
    simp [ParamikoSlurmClient.get_job_status, h1, h2]

/-- C5 witness: the three derivation branches at concrete responses — a live
`squeue` state wins; with an empty queue the first `sacct` token wins; with
both empty the default `COMPLETED` is returned. -/
theorem remote_status_derivation_witness :
    ParamikoSlurmClient.get_job_status (" RUNNING\n") ("zzz")
      = pyStrip (" RUNNING\n") ∧
    (∃ tok rest, pySplit (pyStrip (" COMPLETED 2024-01-01")) = tok :: rest ∧
      ParamikoSlurmClient.get_job_status ("\n") (" COMPLETED 2024-01-01")
        = tok) ∧
    ParamikoSlurmClient.get_job_status ("") ("  ") = "COMPLETED" :=
  ⟨(remote_status_derivation (" RUNNING\n") ("zzz")).1 (by decide),
   (remote_status_derivation ("\n") (" COMPLETED 2024-01-01")).2.1
      (by decide) (by decide),
   (remote_status_derivation ("") ("  ")).2.2 (by decide) (by decide)⟩

/-- C6: the remote client's `get_job_output` tries a direct SFTP read of the
computed output file first (returning its content on success), falls back to
a remote `cat` on SFTP failure (returning the stripped stdout on success),
and when every one of the 10 bounded attempts fails it terminates — sleeping
the fixed interval exactly 9 times, never raising — with a string containing
the attempted output filename and the explicit "not found" marker. -/
theorem remote_output_retry (job_files : JobFiles) (jid : String)
    (attempts : ℕ → FetchAttempt) :
    (∀ c, (attempts 0).sftpRead = some c →
      ParamikoSlurmClient.get_job_output job_files jid attempts = ⟨c, 0⟩) ∧
    ((attempts 0).sftpRead = none → (attempts 0).catCode = 0 →
      ParamikoSlurmClient.get_job_output job_files jid attempts
        = ⟨pyStrip (attempts 0).catOutRaw, 0⟩) ∧
    ((∀ i, i < 10 → (attempts i).sftpRead = none ∧ (attempts i).catCode ≠ 0) →
      ParamikoSlurmClient.get_job_output job_files jid attempts
        = ⟨"Output file " ++ computeOutfile job_files jid
             ++ " not found after retries.", 9⟩ ∧
      pyIn (computeOutfile job_files jid)
        (ParamikoSlurmClient.get_job_output job_files jid attempts).text
        = true ∧
      pyIn ("not found")
        (ParamikoSlurmClient.get_job_output job_files jid attempts).text
        = true) := by
  refine ⟨?_, ?_, ?_⟩
  · intro c hc
    simp [ParamikoSlurmClient.get_job_output, fetchLoop, hc]
  · intro hs hc
    simp [ParamikoSlurmClient.get_job_output, fetchLoop, hs, hc]
  · intro hfail
    have hloop := fetchLoop_all_fail (computeOutfile job_files jid) attempts
      10 10 0 (le_refl 10) (fun i _ hlt => hfail i hlt)
    have heq : ParamikoSlurmClient.get_job_output job_files jid attempts
        = ⟨"Output file " ++ computeOutfile job_files jid
             ++ " not found after retries.", 9⟩ := by
      rw [ParamikoSlurmClient.get_job_output, hloop]
    refine ⟨heq, ?_, ?_⟩
    · rw [heq]
      exact pyIn_parts ("Output file ") (computeOutfile job_files jid)
        (" not found after retries.")
    · rw [heq]
      exact pyIn_of_append_right ("not found")
        ("Output file " ++ computeOutfile job_files jid)
        (" not found after retries.") (by decide)

/-- C6 witness: with an environment where the SFTP read always raises and
`cat` always exits non-zero, a fresh remote client's `get_job_output` for id
`"5"` returns the not-found string after 9 sleeps. -/
theorem remote_output_retry_witness :
    ParamikoSlurmClient.get_job_output [] ("5") (fun _ => ⟨none, 1, ("")⟩)
      = ⟨"Output file " ++ computeOutfile [] ("5")
           ++ " not found after retries.", 9⟩ :=
  ((remote_output_retry [] ("5") (fun _ => ⟨none, 1, ("")⟩)).2.2
    (fun i _ => ⟨rfl, by decide⟩)).1

/-- C7: the remote client derives the output pattern once, at submission
time, by scanning the script for a line starting with `#SBATCH --output=`
(a successful submission binds the job id to the derived pattern); absent
such a line the default `slurm-%j.out` is used; substituting `%j` yields
`custom-77.log` from `custom-%j.log` for id "77" and `slurm-77.out` for the
default. -/
theorem output_pattern_derivation :
    (∀ script : String,
      (∀ line ∈ pySplitLines script,
        pyStartsWith (pyStrip line) ("#SBATCH --output=") = false) →
      deriveOutputPattern script = "slurm-%j.out") ∧
    (∀ (jf : JobFiles) (script outRaw errRaw jid : String),
      (pySplit (pyStrip outRaw)).getLast? = some jid →
      (ParamikoSlurmClient.submit_job jf script none 0 outRaw errRaw).snd
        = dictInsert jf jid (deriveOutputPattern script)) ∧
    deriveOutputPattern
        ("#!/bin/bash\n#SBATCH --output=custom-%j.log\necho hi\n")
      = "custom-%j.log" ∧
    pyReplace ("custom-%j.log") ("%j") ("77") = "custom-77.log" ∧
    computeOutfile [(("77"), ("custom-%j.log"))] ("77") = "custom-77.log" ∧
    computeOutfile [] ("77") = "slurm-77.out" := by
  refine ⟨?_, ?_, by decide, by decide, by decide, by decide⟩
  · intro script hnone
    exact scanOutputPattern_default (pySplitLines script) hnone
  · intro jf script outRaw errRaw jid hlast
    simp [ParamikoSlurmClient.submit_job, hlast]

/-- C7 witness: a script with no output directive derives the default
pattern, and a successful submission (sbatch replied
"Submitted batch job 77") records the derived pattern under id "77". -/
theorem output_pattern_derivation_witness :
    deriveOutputPattern ("echo hi\n") = "slurm-%j.out" ∧
    (ParamikoSlurmClient.submit_job [] ("echo hi") none 0
        ("Submitted batch job 77") ("")).snd
      = dictInsert [] ("77") (deriveOutputPattern ("echo hi")) :=
  ⟨output_pattern_derivation.1 ("echo hi\n") (by decide),
   output_pattern_derivation.2.1 [] ("echo hi")
      ("Submitted batch job 77") ("") ("77") (by decide)⟩

/-- C8: a successful remote submission parses the job id as the last
whitespace-delimited token of the scheduling command's (stripped) response
and records the output pattern under it; a non-zero exit status yields the
raised `sbatch failed:` error carrying the command's stripped stderr text,
and the `job_files` registry is left unchanged (no job record created). -/
theorem remote_submit_contract (jf : JobFiles) (script outRaw errRaw : String)
    (code : ℕ) :
    (code = 0 → ∀ jid, (pySplit (pyStrip outRaw)).getLast? = some jid →
      ParamikoSlurmClient.submit_job jf script none code outRaw errRaw
        = (.ok jid, dictInsert jf jid (deriveOutputPattern script))) ∧
    (code ≠ 0 →
      ParamikoSlurmClient.submit_job jf script none code outRaw errRaw
        = (.error ("sbatch failed: " ++ pyStrip errRaw), jf)) := by
  constructor
  · intro hc jid hlast
    subst hc
    simp [ParamikoSlurmClient.submit_job, hlast]
  · intro hc
    simp [ParamikoSlurmClient.submit_job, hc]

/-- C8 witness: the response "Submitted batch job 123456" yields id
"123456" with a new registry binding; exit status 1 with stderr text yields
the error carrying that text and an unchanged (empty) registry. -/
theorem remote_submit_contract_witness :
    ParamikoSlurmClient.submit_job [] ("echo") none 0
        ("Submitted batch job 123456") ("")
      = (.ok ("123456"),
         dictInsert [] ("123456") (deriveOutputPattern ("echo"))) ∧
    ParamikoSlurmClient.submit_job [] ("echo") none 1 ("")
        ("sbatch: error: invalid partition")
      = (.error ("sbatch failed: "
           ++ pyStrip ("sbatch: error: invalid partition")), []) :=
  ⟨(remote_submit_contract [] ("echo") ("Submitted batch job 123456") ("") 0).1
      rfl ("123456") (by decide),
   (remote_submit_contract [] ("echo") ("")
      ("sbatch: error: invalid partition") 1).2 (by decide)⟩

/-- C9 counterexample: the remote client keeps no status cache — each poll
is a pure function of the current scheduler responses.  A two-poll sequence
in which `sacct` first reports the terminal state `FAILED` and `squeue`
then reports `RUNNING` observes `RUNNING` after the terminal `FAILED`,
violating the claimed terminal-state persistence. -/
theorem remote_poll_nonmonotone :
    ParamikoSlurmClient.pollSequence
        [(("") , ("FAILED")), (("RUNNING"), (""))]
      = [("FAILED"), ("RUNNING")] ∧
    isTerminalState ("FAILED") = true ∧
    (("RUNNING") : String) ≠ ("FAILED") := by
  refine ⟨by decide, by decide, by decide⟩

/-- C9 (amended): for the simulated client — whose only terminal state is
`COMPLETED` — once a poll observes `COMPLETED`, every later poll of that id
at a time not earlier than that poll observes `COMPLETED` again.  The remote
client's poll result is a function of the current scheduler responses only
(no cache), so no such guarantee holds for it (see the counterexample). -/
theorem mock_terminal_persistence (s : MockState) (jid : String) (t1 : ℚ)
    (ts : List ℚ)
    (h1 : (MockSlurmClient.get_job_status s jid t1).fst = "COMPLETED")
    (hts : ∀ t ∈ ts, t1 ≤ t) :
    MockSlurmClient.pollStatuses
        (MockSlurmClient.get_job_status s jid t1).snd jid ts
      = ts.map fun _ => "COMPLETED" := by
  cases hj : dictGet? s.jobs jid with
  | none =>
    rw [mock_poll_unknown s jid t1 hj] at h1
    simp at h1
  | some job =>
    have h5 : 5 ≤ t1 - job.submitted_at :=
      (mock_poll_fst_completed_iff s jid t1 job hj).mp h1
    have hts5 : ∀ t ∈ ts, 5 ≤ t - job.submitted_at := by
      intro t ht
      have := hts t ht
      linarith
    by_cases hout : job.output = ""
    · exact pollStatuses_completed jid ts job.submitted_at _ _
        (mock_poll_snd_ge5_empty s jid t1 job hj h5 hout) rfl hts5
    · exact pollStatuses_completed jid ts job.submitted_at _ _
        (mock_poll_snd_ge5_nonempty s jid t1 job hj h5 hout) rfl hts5

/-- C9 witness: a mock job submitted at time 0, first polled at time 5
(observing `COMPLETED`), then polled at times 6 and 7, observes
`COMPLETED` both times. -/
theorem mock_terminal_persistence_witness :
    MockSlurmClient.pollStatuses
        (MockSlurmClient.get_job_status
          ⟨[(("4"), { status := ("PENDING"), script := ("x"),
                      submitted_at := 0, output := ("") })]⟩ ("4") 5).snd
        ("4") [6, 7]
      = [("COMPLETED"), ("COMPLETED")] := by
  have h := mock_terminal_persistence
      ⟨[(("4"), { status := ("PENDING"), script := ("x"),
                  submitted_at := 0, output := ("") })]⟩ ("4") 5 [6, 7]
      (by
        simp only [MockSlurmClient.get_job_status, dictGet?]
        norm_num)
      (by intro t ht; fin_cases ht <;> norm_num)
  simpa using h

/-- C10: the simulated client's `get_job_output` returns the placeholder
`No output available.` for an identifier it never issued; for a submitted
job polled only at times with elapsed < 5 s (so `COMPLETED` was never
observed) it returns the empty string the output field was initialized to,
not the placeholder. -/
theorem mock_output_defaults :
    (∀ (s : MockState) (jid : String), dictGet? s.jobs jid = none →
      MockSlurmClient.get_job_output s jid = "No output available.") ∧
    (∀ (s0 : MockState) (sc : String) (t0 : ℚ) (r : ℕ) (ts : List ℚ),
      (∀ t ∈ ts, t - t0 < 5) →
      MockSlurmClient.get_job_output
        (MockSlurmClient.pollFold
          (MockSlurmClient.submit_job s0 sc t0 r).snd
          (MockSlurmClient.submit_job s0 sc t0 r).fst ts)
        (MockSlurmClient.submit_job s0 sc t0 r).fst = "") := by
  constructor
  · intro s jid h
    simp [MockSlurmClient.get_job_output, h]
  · intro s0 sc t0 r ts hts
    have hsub : dictGet? (MockSlurmClient.submit_job s0 sc t0 r).snd.jobs
        (MockSlurmClient.submit_job s0 sc t0 r).fst
        = some { status := "PENDING", script := sc,
                 submitted_at := t0, output := "" } := by
      simpa [MockSlurmClient.submit_job]
        using dictGet?_insert s0.jobs (Nat.repr r) _
    obtain ⟨job', hj', ho', _⟩ := pollFold_preserves
      (MockSlurmClient.submit_job s0 sc t0 r).fst ts _ _ hsub rfl hts
    simp [MockSlurmClient.get_job_output, hj', ho']

/-- C10 witness: a fresh mock client returns the placeholder for id "5";
a job submitted at time 0 and polled at times 1 and 3 still has the empty
output string. -/
theorem mock_output_defaults_witness :
    MockSlurmClient.get_job_output MockSlurmClient.init ("5")
      = "No output available." ∧
    MockSlurmClient.get_job_output
      (MockSlurmClient.pollFold
        (MockSlurmClient.submit_job MockSlurmClient.init ("x") 0 1000).snd
        (MockSlurmClient.submit_job MockSlurmClient.init ("x") 0 1000).fst
        [1, 3])
      (MockSlurmClient.submit_job MockSlurmClient.init ("x") 0 1000).fst
      = "" :=
  ⟨mock_output_defaults.1 MockSlurmClient.init ("5") rfl,
   mock_output_defaults.2 MockSlurmClient.init ("x") 0 1000 [1, 3]
      (by intro t ht; fin_cases ht <;> norm_num)⟩
